import Mathlib

/-!
# Verification of the ARGoS3 PhysX / Qt-OpenGL adapter headers

Shallow embedding of the two headers
`src/plugins/simulator/physics_engines/physx/physx_engine.h` and
`src/plugins/simulator/visualizations/qt-opengl/qtopengl_widget.h`.

`Real` (a typedef over a C++ floating-point type) is modelled by `ℚ`: the
coordinate conversions only permute components and flip signs, which are
exact floating-point operations, and the algebraic claims are stated by the
spec as exact ("bit-for-bit modulo floating-point associativity").
-/

namespace argos

/-- `CVector3`: a position in the ARGoS (simulation) space. -/
structure CVector3 where
  x : ℚ
  y : ℚ
  z : ℚ
  deriving DecidableEq

/-- `physx::PxVec3`: a position in the PhysX (engine) space. -/
structure PxVec3 where
  x : ℚ
  y : ℚ
  z : ℚ
  deriving DecidableEq

/-- `CQuaternion`: an orientation in the ARGoS (simulation) space. -/
structure CQuaternion where
  w : ℚ
  x : ℚ
  y : ℚ
  z : ℚ
  deriving DecidableEq

/-- `physx::PxQuat`: an orientation in the PhysX (engine) space
(PhysX declares the components in the order x, y, z, w). -/
structure PxQuat where
  x : ℚ
  y : ℚ
  z : ℚ
  w : ℚ
  deriving DecidableEq

/-- `CVector3ToPxVec3` (physx_engine.h, lines 194-199):
`c_pxvec3.x = -c_vector3.GetY(); c_pxvec3.y = c_vector3.GetZ();
c_pxvec3.z = c_vector3.GetX();` -/
def CVector3ToPxVec3 (v : CVector3) : PxVec3 :=
  { x := -v.y, y := v.z, z := v.x }

/-- `PxVec3ToCVector3` (physx_engine.h, lines 211-216):
`c_vector3.Set(c_pxvec3.z, -c_pxvec3.x, c_pxvec3.y);` -/
def PxVec3ToCVector3 (p : PxVec3) : CVector3 :=
  { x := p.z, y := -p.x, z := p.y }

/-- `CQuaternionToPxQuat` (physx_engine.h, lines 228-234):
`c_pxquat.w = c_quaternion.GetW(); c_pxquat.x = c_quaternion.GetY();
c_pxquat.y = -c_quaternion.GetZ(); c_pxquat.z = -c_quaternion.GetX();` -/
def CQuaternionToPxQuat (q : CQuaternion) : PxQuat :=
  { w := q.w, x := q.y, y := -q.z, z := -q.x }

/-- `PxQuatToCQuaternion` (physx_engine.h, lines 246-252):
`c_quaternion.SetW(c_pxquat.w); c_quaternion.SetX(-c_pxquat.z);
c_quaternion.SetY(c_pxquat.x); c_quaternion.SetZ(-c_pxquat.y);` -/
def PxQuatToCQuaternion (p : PxQuat) : CQuaternion :=
  { w := p.w, x := -p.z, y := p.x, z := -p.y }

/-- Squared norm of an ARGoS-space quaternion. -/
def qNormSqC (q : CQuaternion) : ℚ :=
  q.w * q.w + q.x * q.x + q.y * q.y + q.z * q.z

/-- Squared norm of a PhysX-space quaternion. -/
def qNormSqPx (p : PxQuat) : ℚ :=
  p.w * p.w + p.x * p.x + p.y * p.y + p.z * p.z

/-- Hamilton product of two ARGoS-space quaternions. -/
def qMulC (a b : CQuaternion) : CQuaternion :=
  { w := a.w * b.w - a.x * b.x - a.y * b.y - a.z * b.z
    x := a.w * b.x + a.x * b.w + a.y * b.z - a.z * b.y
    y := a.w * b.y - a.x * b.z + a.y * b.w + a.z * b.x
    z := a.w * b.z + a.x * b.y - a.y * b.x + a.z * b.w }

/-- Conjugate of an ARGoS-space quaternion. -/
def qConjC (a : CQuaternion) : CQuaternion :=
  { w := a.w, x := -a.x, y := -a.y, z := -a.z }

/-- Rotation of an ARGoS-space vector by an ARGoS-space quaternion:
the vector part of the sandwich product `q * v * conj q`. -/
def RotateC (q : CQuaternion) (v : CVector3) : CVector3 :=
  let p := qMulC (qMulC q { w := 0, x := v.x, y := v.y, z := v.z }) (qConjC q)
  { x := p.x, y := p.y, z := p.z }

/-- Hamilton product of two PhysX-space quaternions. -/
def qMulPx (a b : PxQuat) : PxQuat :=
  { w := a.w * b.w - a.x * b.x - a.y * b.y - a.z * b.z
    x := a.w * b.x + a.x * b.w + a.y * b.z - a.z * b.y
    y := a.w * b.y - a.x * b.z + a.y * b.w + a.z * b.x
    z := a.w * b.z + a.x * b.y - a.y * b.x + a.z * b.w }

/-- Conjugate of a PhysX-space quaternion. -/
def qConjPx (a : PxQuat) : PxQuat :=
  { w := a.w, x := -a.x, y := -a.y, z := -a.z }

/-- Rotation of a PhysX-space vector by a PhysX-space quaternion:
the vector part of the sandwich product `q * v * conj q`. -/
def RotatePx (q : PxQuat) (v : PxVec3) : PxVec3 :=
  let p := qMulPx (qMulPx q { w := 0, x := v.x, y := v.y, z := v.z }) (qConjPx q)
  { x := p.x, y := p.y, z := p.z }

/-- `CPhysXModel`: adapter-side representation of one simulated body.
The generated Add operation creates it as `new DYN2D_MODEL(c_engine,
c_entity)`, so it is determined by the engine and the entity it is built
from. -/
structure CPhysXModel where
  engineId : String
  entityId : String
  deriving DecidableEq

/-- Lookup in a `std::map<std::string, ·>`, modelled as an association
list with unique keys. -/
def mapLookup {M : Type} (k : String) : List (String × M) → Option M
  | [] => none
  | kv :: rest => if k = kv.1 then some kv.2 else mapLookup k rest

/-- Insertion into a `std::map<std::string, ·>`: overwrite the binding if
the key is present, append it otherwise. -/
def mapInsert {M : Type} (k : String) (v : M) : List (String × M) → List (String × M)
  | [] => [(k, v)]
  | kv :: rest => if k = kv.1 then (k, v) :: rest else kv :: mapInsert k v rest

/-- Erasure from a `std::map<std::string, ·>`: drop every binding of the
key (on maps with unique keys this is the single `erase`). -/
def mapErase {M : Type} (k : String) : List (String × M) → List (String × M)
  | [] => []
  | kv :: rest => if k = kv.1 then mapErase k rest else kv :: mapErase k rest

/-- The state of `CPhysXEngine` relevant to entity bookkeeping: the engine
id (inherited from `CPhysicsEngine`) and the physics model registry
`std::map<std::string, CPhysXModel*> m_tPhysicsModels`. -/
structure CPhysXEngine where
  engineId : String
  physicsModels : List (String × CPhysXModel)
  deriving DecidableEq

/-- Modelled from the spec: `CPhysXEngine::AddPhysicsModel` is only
declared in the excerpt (physx_engine.h, line 68); the spec describes it
as "direct registry mutation used internally by generated entity-operation
handlers", registering the model under the given string id. -/
def AddPhysicsModel (e : CPhysXEngine) (strId : String) (m : CPhysXModel) : CPhysXEngine :=
  { e with physicsModels := mapInsert strId m e.physicsModels }

/-- Modelled from the spec: `CPhysXEngine::RemovePhysicsModel` is only
declared in the excerpt (physx_engine.h, line 70); per the spec it erases
the registry binding of the given string id. -/
def RemovePhysicsModel (e : CPhysXEngine) (strId : String) : CPhysXEngine :=
  { e with physicsModels := mapErase strId e.physicsModels }

/-- The body component (`CEmbodiedEntity`) of an entity: it holds
non-owning references to physics models keyed by engine id. -/
structure CEmbodiedEntity where
  physicsModels : List (String × CPhysXModel)
  deriving DecidableEq

/-- Modelled from the spec: `CEmbodiedEntity::AddPhysicsModel` lives in
the simulator core, outside the excerpt; per the spec the body component
maps each engine id to a non-owning reference to the model held by that
engine. -/
def bodyAddPhysicsModel (b : CEmbodiedEntity) (engineId : String) (m : CPhysXModel) :
    CEmbodiedEntity :=
  { b with physicsModels := mapInsert engineId m b.physicsModels }

/-- Modelled from the spec: `CEmbodiedEntity::RemovePhysicsModel` lives in
the simulator core, outside the excerpt; per the spec it erases the body
component's binding for the given engine id. -/
def bodyRemovePhysicsModel (b : CEmbodiedEntity) (engineId : String) : CEmbodiedEntity :=
  { b with physicsModels := mapErase engineId b.physicsModels }

/-- A simulator entity: its id, its concrete dynamic type (used by the
entity-operation dispatch), and its body component. -/
structure CEntity where
  entityId : String
  typeTag : String
  body : CEmbodiedEntity
  deriving DecidableEq

/-- The `ApplyTo` body generated by
`REGISTER_STANDARD_PHYSX_OPERATION_ADD_ENTITY` (physx_engine.h, lines
276-294): create the physics model from the engine and the entity,
register it in the engine under the entity's id, then register it in the
entity's body component under the engine's id. -/
def ApplyToAdd (e : CPhysXEngine) (ent : CEntity) : CPhysXEngine × CEntity :=
  let pcPhysModel : CPhysXModel := { engineId := e.engineId, entityId := ent.entityId }
  let eAfter := AddPhysicsModel e ent.entityId pcPhysModel
  let entAfter := { ent with body := bodyAddPhysicsModel ent.body eAfter.engineId pcPhysModel }
  (eAfter, entAfter)

/-- The `ApplyTo` body generated by
`REGISTER_STANDARD_PHYSX_OPERATION_REMOVE_ENTITY` (physx_engine.h, lines
296-311): unregister the entity's id from the engine's registry and the
engine's id from the entity's body component. -/
def ApplyToRemove (e : CPhysXEngine) (ent : CEntity) : CPhysXEngine × CEntity :=
  let eAfter := RemovePhysicsModel e ent.entityId
  let entAfter := { ent with body := bodyRemovePhysicsModel ent.body eAfter.engineId }
  (eAfter, entAfter)

/-- An entity-operation handler table for one action kind, mapping a
concrete entity type tag to the registered handler. Modelled from the
spec: the dispatch registry (`REGISTER_ENTITY_OPERATION` /
`CallEntityOperation`) lives in the simulator core, outside the excerpt. -/
def TOperationRegistry : Type :=
  List (String × (CPhysXEngine → CEntity → CPhysXEngine × CEntity))

/-- Modelled from the spec: `CPhysXEngine::AddEntity` is only declared in
the excerpt (physx_engine.h, line 57); per the spec it dispatches to the
handler registered for the entity's concrete type, and "an unregistered
entity type passed to Add/Remove is a configuration error, reported, not
silently ignored". The `Option String` component is the reported error, if
any; on error the engine and the entity are returned unchanged. -/
def AddEntity (reg : TOperationRegistry) (e : CPhysXEngine) (ent : CEntity) :
    Option String × CPhysXEngine × CEntity :=
  match mapLookup ent.typeTag reg with
  | none => (some ("Operation AddEntity not found for entity type " ++ ent.typeTag), e, ent)
  | some handler => (none, handler e ent)

/-- Modelled from the spec: `CPhysXEngine::RemoveEntity` is only declared
in the excerpt (physx_engine.h, line 59); same dispatch contract as
`AddEntity`. -/
def RemoveEntity (reg : TOperationRegistry) (e : CPhysXEngine) (ent : CEntity) :
    Option String × CPhysXEngine × CEntity :=
  match mapLookup ent.typeTag reg with
  | none => (some ("Operation RemoveEntity not found for entity type " ++ ent.typeTag), e, ent)
  | some handler => (none, handler e ent)

/-- First hit among a list of (entity id, ray parameter) candidates: the
candidate with the smallest ray parameter, earlier entries winning ties. -/
def firstHit : List (String × ℚ) → Option (String × ℚ)
  | [] => none
  | hit :: rest =>
    match firstHit rest with
    | none => some hit
    | some best => if hit.2 ≤ best.2 then some hit else some best

/-- Modelled from the spec: `CPhysXEngine::CheckIntersectionWithRay` is
only declared in the excerpt (physx_engine.h, lines 65-66); per the spec
it is a "first-hit ray cast into the scene" that "returns the hit entity
and the ray parameter at which the hit occurs, or signals no hit", the
absence of a hit being "a normal negative result, not an error". The scene
is abstracted as the list of embodied entities paired with the ray
parameter at which the given ray hits each of them, if at all. -/
def CheckIntersectionWithRay (scene : List (String × Option ℚ)) : Option (String × ℚ) :=
  firstHit (scene.filterMap (fun b => b.2.map (fun t => (b.1, t))))

/-- `CQTOpenGLWidget::SFrameGrabData` (qtopengl_widget.h, lines 60-75). -/
structure SFrameGrabData where
  Grabbing : Bool
  Directory : String
  BaseName : String
  Format : String
  Quality : Int
  deriving DecidableEq

/-- The default constructor of `SFrameGrabData` (qtopengl_widget.h, lines
67-72). -/
def defaultSFrameGrabData : SFrameGrabData :=
  { Grabbing := false, Directory := ".", BaseName := "frame_", Format := "png", Quality := -1 }

/-- Modelled from the spec: the exported image file of a captured frame is
named `<BaseName><frame-number>.<Format>` in `<Directory>` (the code that
writes it is in the widget's implementation file, outside the excerpt). -/
def frameFileName (d : SFrameGrabData) (nFrame : Nat) : String :=
  d.BaseName ++ toString nFrame ++ "." ++ d.Format

/-- Modelled from the spec: with grabbing enabled, the widget exports one
frame "once every configured number of frames"; the frame number is the
index of the simulation step at which the frame is captured, starting at
0. With grabbing disabled, no file is produced. -/
def grabbedFileNames (d : SFrameGrabData) (nEvery : Nat) (nSteps : Nat) : List String :=
  if d.Grabbing then
    ((List.range nSteps).filter (fun n => n % nEvery == 0)).map (frameFileName d)
  else
    []

/-- `QSize`: a Qt size, integer width and height. -/
structure QSize where
  width : Int
  height : Int
  deriving DecidableEq

/-- `CQTOpenGLWidget::heightForWidth` (qtopengl_widget.h, lines 108-110):
`return (w * 3) / 4;` — C++ `int` arithmetic, whose division truncates
toward zero. -/
def heightForWidth (w : Int) : Int :=
  Int.tdiv (w * 3) 4

/-- `CQTOpenGLWidget::sizeHint` (qtopengl_widget.h, lines 112-114):
`return QSize(1024,768);` -/
def sizeHint : QSize :=
  { width := 1024, height := 768 }

/-- `CQTOpenGLWidget::minimumSize` (qtopengl_widget.h, lines 116-118):
`return QSize(320,240);` -/
def minimumSize : QSize :=
  { width := 320, height := 240 }

end argos

namespace argos

/-- Erasing a key that was absent before it was inserted restores the map. -/
theorem mapErase_mapInsert {M : Type} (k : String) (v : M) (m : List (String × M))
    (h : mapLookup k m = none) : mapErase k (mapInsert k v m) = m := by
  induction m with
  | nil => simp [mapInsert, mapErase]
  | cons kv rest ih =>
    by_cases hk : k = kv.1
    · simp [mapLookup, hk] at h
    · simp only [mapLookup, if_neg hk] at h
      simp [mapInsert, mapErase, hk, ih h]

/-- After erasing a key, looking it up yields nothing. -/
theorem mapLookup_mapErase {M : Type} (k : String) (m : List (String × M)) :
    mapLookup k (mapErase k m) = none := by
  induction m with
  | nil => rfl
  | cons kv rest ih =>
    by_cases hk : k = kv.1
    · subst hk
      simp [mapErase, ih]
    · simp [mapErase, mapLookup, hk, ih]

/-- `firstHit` returns nothing exactly on the empty candidate list. -/
theorem firstHit_eq_none_iff (l : List (String × ℚ)) :
    firstHit l = none ↔ l = [] := by
  cases l with
  | nil => simp [firstHit]
  | cons hit rest =>
    simp only [firstHit]
    cases firstHit rest with
    | none => simp
    | some best =>
      by_cases hle : hit.2 ≤ best.2 <;> simp [hle]

/-- A hit returned by `firstHit` is a candidate with minimal ray
parameter. -/
theorem firstHit_mem_min (l : List (String × ℚ)) (p : String × ℚ)
    (h : firstHit l = some p) : p ∈ l ∧ ∀ q ∈ l, p.2 ≤ q.2 := by
  induction l generalizing p with
  | nil => simp [firstHit] at h
  | cons hit rest ih =>
    rw [firstHit] at h
    cases hfh : firstHit rest with
    | none =>
      rw [hfh] at h
      have hrest : rest = [] := (firstHit_eq_none_iff rest).mp hfh
      subst hrest
      simp at h
      subst h
      simp
    | some best =>
      rw [hfh] at h
      dsimp only at h
      obtain ⟨hmem, hmin⟩ := ih best hfh
      by_cases hle : hit.2 ≤ best.2
      · rw [if_pos hle] at h
        have hp : p = hit := by injection h with h; exact h.symm
        subst hp
        refine ⟨List.mem_cons_self _ _, ?_⟩
        intro q hq
        rcases List.mem_cons.mp hq with hq | hq
        · exact hq ▸ le_refl _
        · exact le_trans hle (hmin q hq)
      · rw [if_neg hle] at h
        have hp : p = best := by injection h with h; exact h.symm
        subst hp
        refine ⟨List.mem_cons_of_mem _ hmem, ?_⟩
        intro q hq
        rcases List.mem_cons.mp hq with hq | hq
        · exact hq ▸ le_of_lt (lt_of_not_le hle)
        · exact hmin q hq

end argos

namespace argos

/-- C1: `CVector3ToPxVec3` realises the fixed axis permutation
(engine.x = -sim.y, engine.y = sim.z, engine.z = sim.x), and
`PxVec3ToCVector3` is its exact inverse on every simulation-space vector. -/
theorem CVector3ToPxVec3_spec_and_inverse (v : CVector3) :
    (CVector3ToPxVec3 v).x = -v.y ∧
    (CVector3ToPxVec3 v).y = v.z ∧
    (CVector3ToPxVec3 v).z = v.x ∧
    PxVec3ToCVector3 (CVector3ToPxVec3 v) = v := by
  obtain ⟨vx, vy, vz⟩ := v
  refine ⟨rfl, rfl, rfl, ?_⟩
  simp [CVector3ToPxVec3, PxVec3ToCVector3]

/-- C2: `CQuaternionToPxQuat` realises the quaternion permutation
(engine.w = sim.w, engine.x = sim.y, engine.y = -sim.z, engine.z = -sim.x),
and `PxQuatToCQuaternion` is its exact inverse on every simulation-space
quaternion. -/
theorem CQuaternionToPxQuat_spec_and_inverse (q : CQuaternion) :
    (CQuaternionToPxQuat q).w = q.w ∧
    (CQuaternionToPxQuat q).x = q.y ∧
    (CQuaternionToPxQuat q).y = -q.z ∧
    (CQuaternionToPxQuat q).z = -q.x ∧
    PxQuatToCQuaternion (CQuaternionToPxQuat q) = q := by
  obtain ⟨qw, qx, qy, qz⟩ := q
  refine ⟨rfl, rfl, rfl, rfl, ?_⟩
  simp [CQuaternionToPxQuat, PxQuatToCQuaternion]

/-- C3: both round-trip compositions are the identity, for vectors and for
quaternions alike: simulation→engine→simulation and
engine→simulation→engine reproduce the original value exactly. -/
theorem conversion_roundtrips_identity :
    (∀ v : CVector3, PxVec3ToCVector3 (CVector3ToPxVec3 v) = v) ∧
    (∀ p : PxVec3, CVector3ToPxVec3 (PxVec3ToCVector3 p) = p) ∧
    (∀ q : CQuaternion, PxQuatToCQuaternion (CQuaternionToPxQuat q) = q) ∧
    (∀ r : PxQuat, CQuaternionToPxQuat (PxQuatToCQuaternion r) = r) := by
  refine ⟨fun v => ?_, fun p => ?_, fun q => ?_, fun r => ?_⟩
  · obtain ⟨vx, vy, vz⟩ := v
    simp [CVector3ToPxVec3, PxVec3ToCVector3]
  · obtain ⟨px, py, pz⟩ := p
    simp [CVector3ToPxVec3, PxVec3ToCVector3]
  · obtain ⟨qw, qx, qy, qz⟩ := q
    simp [CQuaternionToPxQuat, PxQuatToCQuaternion]
  · obtain ⟨rx, ry, rz, rw⟩ := r
    simp [CQuaternionToPxQuat, PxQuatToCQuaternion]

/-- C4: for every quaternion, `CQuaternionToPxQuat` preserves the
quaternion norm (it only permutes and negates components); in particular a
unit quaternion converts to a unit quaternion. -/
theorem CQuaternionToPxQuat_preserves_norm (q : CQuaternion) :
    qNormSqPx (CQuaternionToPxQuat q) = qNormSqC q ∧
    (qNormSqC q = 1 → qNormSqPx (CQuaternionToPxQuat q) = 1) := by
  have hpres : qNormSqPx (CQuaternionToPxQuat q) = qNormSqC q := by
    obtain ⟨qw, qx, qy, qz⟩ := q
    simp only [qNormSqPx, qNormSqC, CQuaternionToPxQuat]
    ring
  exact ⟨hpres, fun h => hpres.trans h⟩

/-- Witness for C4: norm preservation at the (non-unit) quaternion
(1, 2, 3, 4), and the unit-norm corollary at the unit quaternion
(1, 0, 0, 0). -/
theorem CQuaternionToPxQuat_preserves_norm_witness :
    qNormSqPx (CQuaternionToPxQuat ⟨1, 2, 3, 4⟩) = qNormSqC ⟨1, 2, 3, 4⟩ ∧
    qNormSqPx (CQuaternionToPxQuat ⟨1, 0, 0, 0⟩) = 1 :=
  ⟨(CQuaternionToPxQuat_preserves_norm ⟨1, 2, 3, 4⟩).1,
   (CQuaternionToPxQuat_preserves_norm ⟨1, 0, 0, 0⟩).2 (by norm_num [qNormSqC])⟩

/-- C9: the vector and quaternion conversions are rotation-equivariant:
for every unit quaternion q and every vector v, converting the rotated
vector equals rotating the converted vector by the converted quaternion
(standard quaternion sandwich product on both sides). -/
theorem conversion_rotation_equivariant (q : CQuaternion) (v : CVector3)
    (h : qNormSqC q = 1) :
    CVector3ToPxVec3 (RotateC q v) =
      RotatePx (CQuaternionToPxQuat q) (CVector3ToPxVec3 v) := by
  obtain ⟨qw, qx, qy, qz⟩ := q
  obtain ⟨vx, vy, vz⟩ := v
  simp only [CVector3ToPxVec3, CQuaternionToPxQuat, RotateC, RotatePx,
    qMulC, qMulPx, qConjC, qConjPx, PxVec3.mk.injEq]
  refine ⟨by ring, by ring, by ring⟩

/-- Witness for C9 at the unit quaternion (0, 0, 0, 1) (rotation by π about
the simulation z axis) and the vector (1, 2, 3). -/
theorem conversion_rotation_equivariant_witness :
    qNormSqC ⟨0, 0, 0, 1⟩ = 1 ∧
    CVector3ToPxVec3 (RotateC ⟨0, 0, 0, 1⟩ ⟨1, 2, 3⟩) =
      RotatePx (CQuaternionToPxQuat ⟨0, 0, 0, 1⟩)
        (CVector3ToPxVec3 ⟨1, 2, 3⟩) :=
  ⟨by norm_num [qNormSqC], conversion_rotation_equivariant ⟨0, 0, 0, 1⟩ ⟨1, 2, 3⟩ (by norm_num [qNormSqC])⟩

end argos

namespace argos

/-- C5: applying the generated Add handler and then the generated Remove
handler restores both registries to their prior state: the engine's
physics model registry no longer contains the entity's id and the entity's
body component no longer holds that engine's reference. -/
theorem add_then_remove_restores_registries (e : CPhysXEngine) (ent : CEntity)
    (h1 : mapLookup ent.entityId e.physicsModels = none)
    (h2 : mapLookup e.engineId ent.body.physicsModels = none) :
    (ApplyToRemove (ApplyToAdd e ent).1 (ApplyToAdd e ent).2).1 = e ∧
    (ApplyToRemove (ApplyToAdd e ent).1 (ApplyToAdd e ent).2).2 = ent ∧
    mapLookup ent.entityId
      (ApplyToRemove (ApplyToAdd e ent).1 (ApplyToAdd e ent).2).1.physicsModels = none ∧
    mapLookup e.engineId
      (ApplyToRemove (ApplyToAdd e ent).1 (ApplyToAdd e ent).2).2.body.physicsModels = none := by
  obtain ⟨engId, pms⟩ := e
  obtain ⟨entId, tag, ⟨bpms⟩⟩ := ent
  simp only [ApplyToAdd, ApplyToRemove, AddPhysicsModel, RemovePhysicsModel,
    bodyAddPhysicsModel, bodyRemovePhysicsModel] at *
  exact ⟨by simp [mapErase_mapInsert _ _ _ h1],
         by simp [mapErase_mapInsert _ _ _ h2],
         mapLookup_mapErase _ _,
         mapLookup_mapErase _ _⟩

/-- Witness for C5: a box entity added to and removed from an engine whose
registry starts empty. -/
theorem add_then_remove_restores_registries_witness :
    (ApplyToRemove (ApplyToAdd ⟨"physx0", []⟩ ⟨"box1", "CBoxEntity", ⟨[]⟩⟩).1
        (ApplyToAdd ⟨"physx0", []⟩ ⟨"box1", "CBoxEntity", ⟨[]⟩⟩).2).1 = ⟨"physx0", []⟩ ∧
    (ApplyToRemove (ApplyToAdd ⟨"physx0", []⟩ ⟨"box1", "CBoxEntity", ⟨[]⟩⟩).1
        (ApplyToAdd ⟨"physx0", []⟩ ⟨"box1", "CBoxEntity", ⟨[]⟩⟩).2).2 =
      ⟨"box1", "CBoxEntity", ⟨[]⟩⟩ ∧
    mapLookup "box1"
      (ApplyToRemove (ApplyToAdd ⟨"physx0", []⟩ ⟨"box1", "CBoxEntity", ⟨[]⟩⟩).1
        (ApplyToAdd ⟨"physx0", []⟩ ⟨"box1", "CBoxEntity", ⟨[]⟩⟩).2).1.physicsModels = none ∧
    mapLookup "physx0"
      (ApplyToRemove (ApplyToAdd ⟨"physx0", []⟩ ⟨"box1", "CBoxEntity", ⟨[]⟩⟩).1
        (ApplyToAdd ⟨"physx0", []⟩ ⟨"box1", "CBoxEntity", ⟨[]⟩⟩).2).2.body.physicsModels =
      none :=
  add_then_remove_restores_registries ⟨"physx0", []⟩ ⟨"box1", "CBoxEntity", ⟨[]⟩⟩ rfl rfl

/-- C6: for an entity whose concrete type has no registered handler,
AddEntity and RemoveEntity report an error and leave the engine (hence its
physics model registry) and the entity unchanged. -/
theorem unregistered_type_reports_error (regAdd regRem : TOperationRegistry)
    (e : CPhysXEngine) (ent : CEntity)
    (hA : mapLookup ent.typeTag regAdd = none)
    (hR : mapLookup ent.typeTag regRem = none) :
    ((AddEntity regAdd e ent).1.isSome = true ∧
     (AddEntity regAdd e ent).2.1 = e ∧
     (AddEntity regAdd e ent).2.2 = ent) ∧
    ((RemoveEntity regRem e ent).1.isSome = true ∧
     (RemoveEntity regRem e ent).2.1 = e ∧
     (RemoveEntity regRem e ent).2.2 = ent) := by
  simp [AddEntity, RemoveEntity, hA, hR]

/-- Witness for C6: an entity of a type registered in neither handler
table. -/
theorem unregistered_type_reports_error_witness :
    ((AddEntity [] ⟨"physx0", []⟩ ⟨"e1", "CUnknownEntity", ⟨[]⟩⟩).1.isSome = true ∧
     (AddEntity [] ⟨"physx0", []⟩ ⟨"e1", "CUnknownEntity", ⟨[]⟩⟩).2.1 = ⟨"physx0", []⟩ ∧
     (AddEntity [] ⟨"physx0", []⟩ ⟨"e1", "CUnknownEntity", ⟨[]⟩⟩).2.2 =
       ⟨"e1", "CUnknownEntity", ⟨[]⟩⟩) ∧
    ((RemoveEntity [] ⟨"physx0", []⟩ ⟨"e1", "CUnknownEntity", ⟨[]⟩⟩).1.isSome = true ∧
     (RemoveEntity [] ⟨"physx0", []⟩ ⟨"e1", "CUnknownEntity", ⟨[]⟩⟩).2.1 = ⟨"physx0", []⟩ ∧
     (RemoveEntity [] ⟨"physx0", []⟩ ⟨"e1", "CUnknownEntity", ⟨[]⟩⟩).2.2 =
       ⟨"e1", "CUnknownEntity", ⟨[]⟩⟩) :=
  unregistered_type_reports_error [] [] ⟨"physx0", []⟩ ⟨"e1", "CUnknownEntity", ⟨[]⟩⟩ rfl rfl

/-- C7: CheckIntersectionWithRay is a total function that signals "no hit"
(a plain `none`, not an error) exactly when no body of the scene is hit,
and otherwise returns a hit entity together with the ray parameter of the
hit, minimal among all hits (the first hit). -/
theorem checkIntersectionWithRay_first_hit_or_no_hit
    (scene : List (String × Option ℚ)) :
    (CheckIntersectionWithRay scene = none ↔ ∀ b ∈ scene, b.2 = none) ∧
    (∀ eid t, CheckIntersectionWithRay scene = some (eid, t) →
      (eid, some t) ∈ scene ∧ ∀ b ∈ scene, ∀ u, b.2 = some u → t ≤ u) := by
  constructor
  · rw [CheckIntersectionWithRay, firstHit_eq_none_iff, List.filterMap_eq_nil_iff]
    constructor
    · intro h b hb
      have := h b hb
      simpa [Option.map_eq_none'] using this
    · intro h b hb
      simp [h b hb]
  · intro eid t h
    obtain ⟨hmem, hmin⟩ := firstHit_mem_min _ _ h
    rw [List.mem_filterMap] at hmem
    obtain ⟨b, hb, hfb⟩ := hmem
    cases hb2 : b.2 with
    | none =>
      rw [hb2] at hfb
      simp at hfb
    | some u =>
      rw [hb2] at hfb
      simp at hfb
      obtain ⟨hb1, hu⟩ := hfb
      constructor
      · have hbeq : b = (eid, some t) := by
          obtain ⟨b1, b2⟩ := b
          simp only at hb1 hb2
          rw [hb1, hb2, hu]
        rw [← hbeq]
        exact hb
      · intro c hc v hcv
        have hmemc : (c.1, v) ∈ scene.filterMap (fun b => b.2.map (fun t => (b.1, t))) :=
          List.mem_filterMap.mpr ⟨c, hc, by simp [hcv]⟩
        simpa using hmin (c.1, v) hmemc

/-- Witness for C7 is not required (the theorem has no hypothesis), but a
concrete scene exercises it: for a scene with hits at parameters 3 and 1,
the minimality part places the returned parameter below both. -/
theorem checkIntersectionWithRay_first_hit_or_no_hit_witness :
    ("sphere", some (1 : ℚ)) ∈ [("box", some (3 : ℚ)), ("sphere", some (1 : ℚ))] :=
  ((checkIntersectionWithRay_first_hit_or_no_hit
      [("box", some 3), ("sphere", some 1)]).2 "sphere" 1 rfl).1

/-- C8: with frame grabbing enabled, capture every 1 frame, BaseName
"frame_" and Format "png", the first three captured frames are named
frame_0.png, frame_1.png, frame_2.png, in that order. -/
theorem frame_grab_file_names :
    grabbedFileNames { defaultSFrameGrabData with Grabbing := true } 1 3 =
      ["frame_0.png", "frame_1.png", "frame_2.png"] := by
  decide

/-- C10: the widget maintains a 4:3 aspect ratio: for every nonnegative
width w, heightForWidth w is the integer quotient of w * 3 by 4, and both
sizeHint (1024 × 768) and minimumSize (320 × 240) satisfy
height = heightForWidth width exactly. -/
theorem widget_43_aspect_ratio (w : Int) (h : 0 ≤ w) :
    heightForWidth w = w * 3 / 4 ∧
    sizeHint.height = heightForWidth sizeHint.width ∧
    minimumSize.height = heightForWidth minimumSize.width := by
  refine ⟨?_, by decide, by decide⟩
  have h3 : (0 : Int) ≤ w * 3 := by positivity
  exact Int.tdiv_eq_ediv h3 (by norm_num)

/-- Witness for C10 at width 640. -/
theorem widget_43_aspect_ratio_witness :
    heightForWidth 640 = 640 * 3 / 4 ∧
    sizeHint.height = heightForWidth sizeHint.width ∧
    minimumSize.height = heightForWidth minimumSize.width :=
  widget_43_aspect_ratio 640 (by decide)

end argos
